import Mathlib

/-!
Verification of the TrustGuard risk-analysis core (`trustguard/risk.py`),
the advisory-LLM wrapper (`trustguard/llm.py`) and the safe-word storage
helpers (`trustguard/storage.py`), shallowly embedded in Lean 4.

Python strings are modelled as Lean `String` (lists of Unicode scalar
values); Python ints as `Int`/`Nat`; fallible calls as `Except`; absent
dictionary keys as `Option`.
-/

namespace TrustGuard

/-- The set of characters for which CPython `str.isspace()` holds; the
`re` module's `\s` class matches exactly these characters on `str`
patterns, and `str.strip()` with no argument strips exactly these. -/
def pyIsSpace (c : Char) : Bool :=
  let n := c.toNat
  (9 ≤ n && n ≤ 13) || n == 28 || n == 29 || n == 30 || n == 31 || n == 32 ||
  n == 0x85 || n == 0xA0 || n == 0x1680 || (0x2000 ≤ n && n ≤ 0x200A) ||
  n == 0x2028 || n == 0x2029 || n == 0x202F || n == 0x205F || n == 0x3000

/-- ASCII-restricted model of CPython `str.lower()` applied to one
character: uppercase ASCII letters map to lowercase, everything else is
unchanged.  CPython also lowers non-ASCII cased letters; the analyser only
ever compares the lowered text against ASCII keyword and brand strings, and
this model agrees with CPython on every ASCII character. -/
def pyLowerChar (c : Char) : Char :=
  if 'A' ≤ c && c ≤ 'Z' then Char.ofNat (c.toNat + 32) else c

/-- `str.lower()` on a whole string (character-wise, see `pyLowerChar`). -/
def pyLower (s : String) : String :=
  ⟨s.data.map pyLowerChar⟩

/-- `str.strip()` with no argument: drop `pyIsSpace` characters from both
ends. -/
def pyStrip (s : String) : String :=
  ⟨((s.data.dropWhile pyIsSpace).reverse.dropWhile pyIsSpace).reverse⟩

/-- Case-insensitive (ASCII) match of the literal pattern `pat` at the
head of `s`; returns the number of characters consumed.  Models how
`re.IGNORECASE` matches the literal scheme characters of `URL_REGEX`. -/
def matchLiteralCI : List Char → List Char → Option Nat
  | [], _ => some 0
  | _ :: _, [] => none
  | p :: ps, c :: cs =>
    if pyLowerChar c == p then (matchLiteralCI ps cs).map (· + 1) else none

/-- One attempt of `URL_REGEX` (`https?://[^\s]+`, `re.IGNORECASE`) at the
head of `s`: the scheme `http://` or `https://` matched case-insensitively,
followed by a maximal nonempty run of non-whitespace characters.  Returns
the total length of the match. -/
def urlMatchLen (s : List Char) : Option Nat :=
  let try' : List Char → Option Nat := fun pat =>
    match matchLiteralCI pat s with
    | none => none
    | some n =>
      let body := (s.drop n).takeWhile (fun c => !pyIsSpace c)
      if body.isEmpty then none else some (n + body.length)
  -- the two regex alternatives are mutually exclusive at a given start
  match try' "https://".data with
  | some n => some n
  | none => try' "http://".data

/-- `re.findall` for `URL_REGEX`: scan left to right, emit each leftmost
non-overlapping match (as it appears in the text, case preserved), resume
after it.  The scan is written with explicit fuel so that it is
structurally recursive; every step consumes at least one character, so
fuel equal to the length of the text (as supplied by `findUrls`) never
runs out. -/
def findUrlsFuel : Nat → List Char → List (List Char)
  | 0, _ => []
  | _ + 1, [] => []
  | fuel + 1, c :: rest =>
    match urlMatchLen (c :: rest) with
    | some n => (c :: rest).take n :: findUrlsFuel fuel (rest.drop (n - 1))
    | none => findUrlsFuel fuel rest

/-- All matches of `URL_REGEX` in `s`, in first-seen order. -/
def findUrls (s : List Char) : List (List Char) :=
  findUrlsFuel s.length s

/-- `extract_urls` (risk.py line 38): `URL_REGEX.findall(text or "")`. -/
def extract_urls (text : String) : List String :=
  (findUrls text.data).map List.asString

/-- Characters that CPython scheme parsing accepts inside a URL scheme
(`scheme_chars` of `urllib.parse`). -/
def isSchemeChar (c : Char) : Bool :=
  c.isAlpha || c.isDigit || c == '+' || c == '-' || c == '.'

/-- The network-location component per `urllib.parse.urlsplit`: strip a
leading `scheme:` when the text before the first `:` is a well-formed
scheme, then, if `//` follows, take everything up to the next `/`, `?` or
`#`; otherwise the netloc is empty.  A netloc containing `[` without `]`
(or vice versa) raises `ValueError` (\x22Invalid IPv6 URL\x22), modelled as
`none`.  (The NFKC-validity check of CPython `_checknetloc` is omitted; it
rejects only exotic non-ASCII netlocs and never fires on the hosts
considered here.) -/
def urlparseNetloc (url : List Char) : Option (List Char) :=
  let rest :=
    match url.findIdx? (· == ':') with
    | some i =>
      let sch := url.take i
      if 0 < i && sch.all isSchemeChar &&
          (match sch.head? with
           | some c0 => c0.isAlpha
           | none => false) then
        url.drop (i + 1)
      else url
    | none => url
  match rest with
  | '/' :: '/' :: r =>
    let netloc := r.takeWhile (fun c => !(c == '/' || c == '?' || c == '#'))
    if (netloc.contains '[') != (netloc.contains ']') then none
    else some netloc
  | _ => some []

/-- `domain_from_url` (risk.py line 67): lower-case the netloc, strip
everything from the first `:` on; any `ValueError` from parsing is caught
and yields the empty string. -/
def domain_from_url (url : String) : String :=
  match urlparseNetloc url.data with
  | none => ""
  | some netloc => ⟨(netloc.map pyLowerChar).takeWhile (· != ':')⟩

/-- `contains_non_ascii` (risk.py line 42): `s.encode("ascii")` raises
`UnicodeEncodeError` exactly when some character has a code point ≥ 128. -/
def contains_non_ascii (s : String) : Bool :=
  s.data.any (fun c => 128 ≤ c.toNat)

/-- Whether `unicodedata.name(c)` contains the substring `"CYRILLIC"`,
modelled on the Cyrillic block U+0400–U+04FF (every assigned name there
contains it).  Characters outside the ranges treated by this and the two
following predicates either have no name (skipped by the source) or a name
without the three script substrings; the model classifies them as
script-free, which agrees with CPython on all code points below U+0500
except unused reserved points. -/
def isCyrillicName (c : Char) : Bool :=
  0x400 ≤ c.toNat && c.toNat ≤ 0x4FF

/-- Whether `unicodedata.name(c)` contains `"GREEK"` (modelled on the
Greek letter range U+0391–U+03C9, excluding the unassigned U+03A2). -/
def isGreekName (c : Char) : Bool :=
  0x391 ≤ c.toNat && c.toNat ≤ 0x3C9 && c.toNat != 0x3A2

/-- Whether `unicodedata.name(c)` contains `"LATIN"` (ASCII letters,
Latin-1 letters, Latin Extended-A). -/
def isLatinName (c : Char) : Bool :=
  let n := c.toNat
  ('A' ≤ c && c ≤ 'Z') || ('a' ≤ c && c ≤ 'z') ||
  (0xC0 ≤ n && n ≤ 0xFF && n != 0xD7 && n != 0xF7) ||
  (0x100 ≤ n && n ≤ 0x17F)

/-- `has_confusable_chars` (risk.py line 50): the set of script families
named in the characters of `s` has more than one element. -/
def has_confusable_chars (s : String) : Bool :=
  let scripts :=
    (if s.data.any isCyrillicName then 1 else 0) +
    (if s.data.any isGreekName then 1 else 0) +
    (if s.data.any isLatinName then 1 else 0)
  decide (1 < scripts)

/-!
## `difflib.SequenceMatcher` (used by `similar`, risk.py line 76)

`SequenceMatcher(None, a, b)` with strings shorter than 200 characters has
no junk and no autojunk.  `find_longest_match` scans `a` left to right
maintaining, for each position `j` in `b`, the length of the longest
common run ending at the current `i` and at `j`; the first block of
maximal length (smallest `i`, then smallest `j`) wins.  `ratio()` is
`2*M/T` where `M` sums the block sizes found by recursing on both sides of
the longest block and `T = len(a) + len(b)` (and `ratio` is defined as `1`
when both strings are empty).
-/

/-- One row of the run-length table: `row[j]` is the length of the common
run ending at `a[i]`/`b[j]`, computed from the previous row (`prev[j-1]`,
with 0 outside). -/
def flmRow (ai : Char) (b : List Char) (prev : List Nat) : List Nat :=
  (b.zip (0 :: prev)).map (fun p => if p.1 == ai then p.2 + 1 else 0)

/-- Best block so far: start in `a`, start in `b`, size. -/
structure FLMBest where
  besti : Nat
  bestj : Nat
  bestsize : Nat
deriving DecidableEq

/-- Fold one row into the running best block, replicating CPython's strict
`k > bestsize` update in ascending `j` order. -/
def flmScanRow (i : Nat) (row : List Nat) (st : FLMBest) : FLMBest :=
  (row.enum).foldl
    (fun st p =>
      if st.bestsize < p.2 then ⟨i + 1 - p.2, p.1 + 1 - p.2, p.2⟩ else st)
    st

/-- `find_longest_match` over whole strings (junk-free). -/
def findLongestMatch (a b : List Char) : FLMBest :=
  let start : FLMBest × List Nat := (⟨0, 0, 0⟩, b.map (fun _ => 0))
  (a.enum.foldl
    (fun acc p =>
      let row := flmRow p.2 b acc.2
      (flmScanRow p.1 row acc.1, row)) start).1

/-- Total matched characters of `get_matching_blocks`: recurse on both
sides of the longest block.  The fuel `a.length + b.length` bounds the
recursion depth (each recursive call strictly shrinks the windows since
the block is nonempty). -/
def matchTotalFuel : Nat → List Char → List Char → Nat
  | 0, _, _ => 0
  | fuel + 1, a, b =>
    let m := findLongestMatch a b
    if m.bestsize == 0 then 0
    else
      matchTotalFuel fuel (a.take m.besti) (b.take m.bestj) + m.bestsize +
      matchTotalFuel fuel (a.drop (m.besti + m.bestsize))
        (b.drop (m.bestj + m.bestsize))

/-- Sum of matching-block sizes for `SequenceMatcher(None, a, b)`. -/
def matchTotal (a b : List Char) : Nat :=
  matchTotalFuel (a.length + b.length) a b

/-- `similar` (risk.py line 76): `SequenceMatcher(None, a, b).ratio()`,
as an exact rational (`2*M/T`, or `1` when `T = 0`).  The source compares
the ratio only against `0.75`, which is exactly representable in binary
floating point, and `|2*M/T - 3/4| ≥ 1/(4*T)` whenever the two differ, so
the float comparison of the source and the rational comparison here agree
for all strings of realistic length. -/
def similar (a b : String) : ℚ :=
  let t := a.length + b.length
  if t = 0 then 1 else (2 * matchTotal a.data b.data : ℚ) / t

/-- The source's only use of `similar` is the comparison
`similar(d, kb) > 0.75`; for nonempty inputs it is equivalent to the pure
integer comparison `3*T < 8*M` (see `similarGt34_iff`), which is the form
used inside the scan so that it evaluates by kernel reduction. -/
def similarGt34 (a b : String) : Bool :=
  3 * (a.length + b.length) < 8 * matchTotal a.data b.data

/-! ## Keyword sets and data model (risk.py lines 7–35, result shape) -/

/-- `KNOWN_BRANDS` (risk.py line 7). -/
def KNOWN_BRANDS : List String :=
  ["microsoft.com", "google.com", "apple.com", "paypal.com", "amazon.com",
   "facebook.com", "bankofamerica.com", "hsbc.com", "slsp.sk", "tatrabanka.sk"]

/-- `URGENCY_KEYWORDS` (risk.py line 22). -/
def URGENCY_KEYWORDS : List String :=
  ["urgent", "immediately", "act now", "24 hours", "final notice",
   "your account will be", "suspended", "last warning", "overdue"]

/-- `THREAT_KEYWORDS` (risk.py line 26). -/
def THREAT_KEYWORDS : List String :=
  ["legal action", "police", "lawsuit", "prosecution", "fine"]

/-- `PAYMENT_KEYWORDS` (risk.py line 29). -/
def PAYMENT_KEYWORDS : List String :=
  ["gift card", "itunes card", "bitcoin", "crypto", "wire transfer",
   "western union", "moneygram", "voucher"]

/-- `CREDENTIAL_KEYWORDS` (risk.py line 33).  Note: the source spells the
fifth entry `"PIN"` in upper case, exactly as reproduced here. -/
def CREDENTIAL_KEYWORDS : List String :=
  ["password", "otp", "2fa", "verification code", "PIN", "passcode"]

/-- A flag dictionary appended to `flags` in `analyze_text`. -/
structure Flag where
  id : String
  title : String
  severity : Nat
  explanation : String
deriving DecidableEq

/-- The dictionary returned by `analyze_text` (risk.py line 189). -/
structure AnalysisResult where
  score : Int
  verdict : String
  color : String
  flags : List Flag
  urls : List String
deriving DecidableEq

/-- Whether `pat` occurs at the head of `s`. -/
def startsWithChars : List Char → List Char → Bool
  | [], _ => true
  | _ :: _, [] => false
  | p :: ps, c :: cs => p == c && startsWithChars ps cs

/-- Whether `pat` occurs contiguously anywhere in `s` (Python
`pat in s`; the empty pattern always matches). -/
def hasSubChars (pat : List Char) : List Char → Bool
  | [] => startsWithChars pat []
  | c :: cs => startsWithChars pat (c :: cs) || hasSubChars pat cs

/-- Python substring membership `k in s`. -/
def pyIn (k s : String) : Bool :=
  hasSubChars k.data s.data

/-- `any(k in text_lower for k in ks)`. -/
def anyKeyword (ks : List String) (textLower : String) : Bool :=
  ks.any (fun k => pyIn k textLower)

/-! ## The five lexical checks (risk.py lines 87–135) -/

/-- The style-anomaly condition (risk.py line 128):
`text.count("!") >= 3 or (len(text) > 0 and sum(upper) > 0.4*len(text))`.
The float comparison `u > 0.4*len` is modelled exactly as `5*u > 2*len`:
for every integer length below 2^53 the rounded product `0.4*len` compares
to an integer `u` exactly as the rational `2*len/5` does.  Upper-case
detection (`c.isupper()`) is modelled on ASCII letters, which agrees with
CPython on all ASCII text. -/
def styleCond (text : String) : Bool :=
  3 ≤ text.data.count '!' ||
  (0 < text.length &&
    2 * text.length < 5 * (text.data.filter (fun c => 'A' ≤ c && c ≤ 'Z')).length)

/-- Flags produced by the four keyword checks and the style check, in
source order (risk.py lines 87–135). -/
def lexical_flags (text : String) : List Flag :=
  let textLower := pyLower text
  (if anyKeyword URGENCY_KEYWORDS textLower then
    [⟨"urgency", "Urgency or pressure", 2,
      "The message uses urgency/pressure (e.g., \x27act now\x27, \x27suspended\x27)."⟩]
   else []) ++
  (if anyKeyword THREAT_KEYWORDS textLower then
    [⟨"threat", "Threatening language", 2,
      "Mentions threats or legal action to force quick decisions."⟩]
   else []) ++
  (if anyKeyword PAYMENT_KEYWORDS textLower then
    [⟨"payment", "Unusual payment request", 3,
      "Asks for gift cards, crypto, or non‑reversible transfers."⟩]
   else []) ++
  (if anyKeyword CREDENTIAL_KEYWORDS textLower then
    [⟨"credentials", "Requests codes or passwords", 3,
      "Legitimate support will not ask for your OTP, 2FA, or password."⟩]
   else []) ++
  (if styleCond text then
    [⟨"style", "Shouting or excessive punctuation", 1,
      "Unusual formatting can be a social‑engineering tactic."⟩]
   else [])

/-- Score contribution of the five lexical checks (15/10/25/25/5). -/
def lexical_score (text : String) : Int :=
  let textLower := pyLower text
  (if anyKeyword URGENCY_KEYWORDS textLower then 15 else 0) +
  (if anyKeyword THREAT_KEYWORDS textLower then 10 else 0) +
  (if anyKeyword PAYMENT_KEYWORDS textLower then 25 else 0) +
  (if anyKeyword CREDENTIAL_KEYWORDS textLower then 25 else 0) +
  (if styleCond text then 5 else 0)

/-! ## Per-URL checks (risk.py lines 137–165) -/

/-- The unicode/punycode suspicion condition for a derived domain. -/
def unicodeCond (d : String) : Bool :=
  contains_non_ascii d || has_confusable_chars d

/-- `d.split(".")[-1]`: the suffix of `d` after its last dot (the whole
string when `d` has no dot, empty when `d` ends in a dot) — exactly the
last element of Python `str.split(".")`. -/
def lastLabel (d : String) : String :=
  ⟨(d.data.reverse.takeWhile (fun c => c != '.')).reverse⟩

/-- The high-risk-TLD condition: `d.split(".")[-1]` is in the fixed set. -/
def tldCond (d : String) : Bool :=
  lastLabel d ∈ (["zip", "top", "cam", "info", "biz", "ru", "cn"] : List String)

/-- Flags appended while processing one extracted URL: the unicode flag
(if any), then the TLD flag (if any); a URL whose domain is empty is
skipped. -/
def url_flags_for (u : String) : List Flag :=
  let d := domain_from_url u
  if d = "" then []
  else
    (if unicodeCond d then
      [⟨"unicode", "Non‑ASCII or mixed‑script domain", 3,
        "Domain \x27" ++ d ++ "\x27 contains non‑ASCII or mixed scripts that can hide lookalikes."⟩]
     else []) ++
    (if tldCond d then
      [⟨"tld", "Unfamiliar or high‑risk TLD", 1,
        "Domain \x27" ++ d ++ "\x27 uses a TLD often seen in spam."⟩]
     else [])

/-- Score contribution of one extracted URL (+20 unicode, +5 TLD). -/
def url_score_for (u : String) : Int :=
  let d := domain_from_url u
  if d = "" then 0
  else (if unicodeCond d then 20 else 0) + (if tldCond d then 5 else 0)

/-- The lookalike scan for one derived domain (risk.py line 153): the
first brand `kb` with `d != kb` and `similar(d, kb) > 0.75` (the `break`
stops at the first hit). -/
def lookalike_match (d : String) : Option String :=
  KNOWN_BRANDS.find? (fun kb => d ≠ kb && similarGt34 d kb)

/-- The `suspicious_domains` list accumulated over all URLs (one pair at
most per URL, in URL order; empty-domain URLs contribute nothing). -/
def suspicious_domains (urls : List String) : List (String × String) :=
  urls.filterMap (fun u =>
    let d := domain_from_url u
    if d = "" then none else (lookalike_match d).map (fun kb => (d, kb)))

/-- The aggregate lookalike flag (risk.py lines 167–175), emitted once
when `suspicious_domains` is nonempty; its explanation joins every
recorded `host≈brand` pair with `", "`. -/
def lookalike_flags (pairs : List (String × String)) : List Flag :=
  if pairs.isEmpty then []
  else
    [⟨"lookalike", "Brand lookalike domain", 3,
      "These domains resemble well‑known brands: " ++
        String.intercalate ", " (pairs.map (fun p => p.1 ++ "≈" ++ p.2)) ++ "."⟩]

/-- The raw (pre-clamp) score accumulated by `analyze_text`. -/
def raw_score (text : String) : Int :=
  let urls := extract_urls text
  lexical_score text +
  (urls.map url_score_for).foldl (· + ·) 0 +
  (if (suspicious_domains urls).isEmpty then 0 else 25)

/-- The verdict/colour mapping applied to the clamped score
(risk.py lines 179–187). -/
def verdict_color (score : Int) : String × String :=
  if 70 ≤ score then ("High Risk", "red")
  else if 35 ≤ score then ("Caution", "orange")
  else ("Likely Safe", "green")

/-- `analyze_text` (risk.py line 80) on a genuine string argument. -/
def analyze_text (text : String) : AnalysisResult :=
  let urls := extract_urls text
  let pairs := suspicious_domains urls
  let score := max 0 (min 100 (raw_score text))
  let vc := verdict_color score
  { score := score
    verdict := vc.1
    color := vc.2
    flags := lexical_flags text ++ (urls.map url_flags_for).flatten ++ lookalike_flags pairs
    urls := urls }

/-- `analyze_text` as invoked with an optional argument.  The first two
uses of the argument are guarded by `text or ""`, but the style check
(risk.py line 128) evaluates `text.count("!")` on the raw argument, so a
`None` argument raises `AttributeError` before any result is produced. -/
def analyze_text_opt (text : Option String) : Except String AnalysisResult :=
  match text with
  | some t => Except.ok (analyze_text t)
  | none => Except.error "AttributeError: \x27NoneType\x27 object has no attribute \x27count\x27"

/-!
## `llm_assess_message` (trustguard/llm.py)

The wrapper resolves the API key (environment, then optional `.env`),
raises `RuntimeError` when none is found, otherwise performs the
chat-completion call inside `try`/`except` and parses the response with
`json.loads` inside a second `try`/`except`.  The environment is modelled
by the resolved key (`Option String`, with the empty string as falsy as in
`if not api_key`) and by the outcome of the network call and JSON parse,
which the function cannot influence.
-/

/-- Outcome of the chat-completion call and of `json.loads` on its
content: any exception from the API call; a response that `json.loads`
(or the subsequent field coercions) rejects; or a parsed JSON object with
its optional fields. -/
inductive LLMCallOutcome where
  | transportFailure (message : String)
  | responseNotJson
  | responseJson (score : Option Int) (verdict : Option String)
      (reasons : Option (List String)) (advice : Option (List String))
      (confidence : Option ℚ)
deriving DecidableEq

/-- The judgment dictionary returned by `llm_assess_message`.  The
`confidence` key is absent from the transport-failure fallback dictionary
(llm.py lines 61–69), hence `Option`. -/
structure LLMJudgment where
  score : Int
  verdict : String
  reasons : List String
  advice : List String
  confidence : Option ℚ
deriving DecidableEq

/-- `int(max(0, min(100, x)))` for an integral JSON score. -/
def clampScore (x : Int) : Int := max 0 (min 100 x)

/-- `float(max(0.0, min(1.0, c)))`. -/
def clampConfidence (c : ℚ) : ℚ := max 0 (min 1 c)

/-- `llm_assess_message` (llm.py line 20), given the resolved API key and
the outcome of the call.  A missing (or empty, hence falsy) key raises
`RuntimeError` before the client is even constructed. -/
def llm_assess_message (api_key : Option String) (outcome : LLMCallOutcome) :
    Except String LLMJudgment :=
  if api_key.getD "" = "" then
    Except.error "Missing OPENAI_API_KEY. Set it before enabling AI checks."
  else
    match outcome with
    | .transportFailure e =>
      Except.ok
        { score := 50
          verdict := "Caution"
          reasons := ["LLM error: " ++ e]
          advice := ["Do not share codes or passwords.",
                     "Verify via official channels and trusted contacts."]
          confidence := none }
    | .responseNotJson =>
      Except.ok
        { score := 50
          verdict := "Caution"
          reasons := ["LLM returned non-JSON content."]
          advice := ["Avoid urgency traps; verify independently.",
                     "Never share OTPs or passwords."]
          confidence := some (1/2) }
    | .responseJson s v r a c =>
      Except.ok
        { score := clampScore (s.getD 50)
          verdict := v.getD "Caution"
          reasons := r.getD []
          advice := a.getD []
          confidence := some (clampConfidence (c.getD (3/5))) }

/-!
## Safe-word hashing (trustguard/storage.py lines 29–34)

`hash_safe_word` is `hashlib.sha256((word or "").strip().lower().encode("utf-8")).hexdigest()`;
`verify_safe_word` compares the stored hex digest with the hash of the
attempt.  SHA-256 is implemented below from FIPS 180-4 over byte lists,
with 32-bit words as `Nat` reduced mod `2^32`.
-/

/-- UTF-8 encoding of one Unicode scalar value, as byte values. -/
def utf8EncodeChar (c : Char) : List Nat :=
  let n := c.toNat
  if n < 0x80 then [n]
  else if n < 0x800 then
    [0xC0 ||| (n >>> 6), 0x80 ||| (n &&& 0x3F)]
  else if n < 0x10000 then
    [0xE0 ||| (n >>> 12), 0x80 ||| ((n >>> 6) &&& 0x3F), 0x80 ||| (n &&& 0x3F)]
  else
    [0xF0 ||| (n >>> 18), 0x80 ||| ((n >>> 12) &&& 0x3F),
     0x80 ||| ((n >>> 6) &&& 0x3F), 0x80 ||| (n &&& 0x3F)]

/-- `s.encode("utf-8")` as a list of byte values. -/
def utf8Encode (s : String) : List Nat :=
  (s.data.map utf8EncodeChar).flatten

/-- Truncation to a 32-bit word. -/
def w32 (n : Nat) : Nat := n % 2 ^ 32

/-- Right rotation of a 32-bit word. -/
def rotr32 (k n : Nat) : Nat := w32 ((n >>> k) ||| (n <<< (32 - k)))

/-- The 64 SHA-256 round constants of FIPS 180-4, written in decimal. -/
def sha256K : List Nat :=
  [1116352408, 1899447441, 3049323471, 3921009573, 961987163, 1508970993,
   2453635748, 2870763221, 3624381080, 310598401, 607225278, 1426881987,
   1925078388, 2162078206, 2614888103, 3248222580, 3835390401, 4022224774,
   264347078, 604807628, 770255983, 1249150122, 1555081692, 1996064986,
   2554220882, 2821834349, 2952996808, 3210313671, 3336571891, 3584528711,
   113926993, 338241895, 666307205, 773529912, 1294757372, 1396182291,
   1695183700, 1986661051, 2177026350, 2456956037, 2730485921, 2820302411,
   3259730800, 3345764771, 3516065817, 3600352804, 4094571909, 275423344,
   430227734, 506948616, 659060556, 883997877, 958139571, 1322822218,
   1537002063, 1747873779, 1955562222, 2024104815, 2227730452, 2361852424,
   2428436474, 2756734187, 3204031479, 3329325298]

/-- The SHA-256 initial hash value of FIPS 180-4, written in decimal. -/
def sha256H0 : List Nat :=
  [1779033703, 3144134277, 1013904242, 2773480762,
   1359893119, 2600822924, 528734635, 1541459225]

/-- A number as `k` big-endian bytes. -/
def beBytes (k n : Nat) : List Nat :=
  (List.range k).map (fun i => (n >>> (8 * (k - 1 - i))) &&& 0xFF)

/-- SHA-256 padding: `0x80`, zeros to 56 mod 64, the bit length as eight
big-endian bytes. -/
def sha256Pad (msg : List Nat) : List Nat :=
  msg ++ 0x80 :: List.replicate ((119 - msg.length % 64) % 64) 0 ++
    beBytes 8 (8 * msg.length)

/-- Split a list into chunks of size `k` (the padded message length is a
multiple of 64, so the last chunk is full). -/
def chunksOf (k : Nat) : List Nat → List (List Nat)
  | [] => []
  | a :: l =>
    if _h : k = 0 then []
    else (a :: l).take k :: chunksOf k ((a :: l).drop k)
termination_by l => l.length
decreasing_by
  simp only [List.length_drop, List.length_cons]
  omega

/-- Four big-endian bytes to one word. -/
def wordsOfChunk (chunk : List Nat) : List Nat :=
  (chunksOf 4 chunk).map (fun bs => bs.foldl (fun acc b => acc * 256 + b) 0)

/-- Message-schedule extension from 16 to 64 words. -/
def sha256Schedule (w16 : List Nat) : List Nat :=
  (List.range 48).foldl
    (fun ws _ =>
      let n := ws.length
      let s0 :=
        let x := ws.getD (n - 15) 0
        rotr32 7 x ^^^ rotr32 18 x ^^^ (x >>> 3)
      let s1 :=
        let x := ws.getD (n - 2) 0
        rotr32 17 x ^^^ rotr32 19 x ^^^ (x >>> 10)
      ws ++ [w32 (ws.getD (n - 16) 0 + s0 + ws.getD (n - 7) 0 + s1)])
    w16

/-- One compression round. -/
def sha256Round (st : List Nat) (kw : Nat × Nat) : List Nat :=
  match st with
  | [a, b, c, d, e, f, g, h] =>
    let S1 := rotr32 6 e ^^^ rotr32 11 e ^^^ rotr32 25 e
    let ch := (e &&& f) ^^^ ((2 ^ 32 - 1 - e) &&& g)
    let temp1 := w32 (h + S1 + ch + kw.1 + kw.2)
    let S0 := rotr32 2 a ^^^ rotr32 13 a ^^^ rotr32 22 a
    let maj := (a &&& b) ^^^ (a &&& c) ^^^ (b &&& c)
    let temp2 := w32 (S0 + maj)
    [w32 (temp1 + temp2), a, b, c, w32 (d + temp1), e, f, g]
  | other => other

/-- Process one 64-byte chunk: run 64 rounds and add the result into the
running hash, word by word, mod `2^32`. -/
def sha256Chunk (H : List Nat) (chunk : List Nat) : List Nat :=
  let ws := sha256Schedule (wordsOfChunk chunk)
  let out := (sha256K.zip ws).foldl sha256Round H
  (H.zip out).map (fun p => w32 (p.1 + p.2))

/-- Lowercase hex rendering of one 32-bit word as eight digits. -/
def hexWord (n : Nat) : String :=
  ⟨(List.range 8).map (fun i =>
    let d := (n >>> (4 * (7 - i))) &&& 0xF
    if d < 10 then Char.ofNat (48 + d) else Char.ofNat (87 + d))⟩

/-- `hashlib.sha256(bytes).hexdigest()`. -/
def sha256Hex (msg : List Nat) : String :=
  String.join ((((chunksOf 64 (sha256Pad msg)).foldl sha256Chunk sha256H0)).map hexWord)

/-- `hash_safe_word` (storage.py line 29):
`sha256((word or "").strip().lower().encode("utf-8")).hexdigest()`. -/
def hash_safe_word (word : String) : String :=
  sha256Hex (utf8Encode (pyLower (pyStrip word)))

/-- `verify_safe_word` (storage.py line 33). -/
def verify_safe_word (stored_hash : String) (attempt : String) : Bool :=
  stored_hash == hash_safe_word attempt

/-! ## Helper lemmas -/

/-- A URL qualifies for the mixed-script/non-ASCII flag. -/
def unicodeQualifies (u : String) : Bool :=
  (domain_from_url u != "") && unicodeCond (domain_from_url u)

/-- A URL qualifies for the suspicious-TLD flag. -/
def tldQualifies (u : String) : Bool :=
  (domain_from_url u != "") && tldCond (domain_from_url u)

/-- The integer comparison used in the scan coincides with the rational
comparison `similar a b > 0.75` whenever at least one string is
nonempty. -/
theorem similarGt34_iff (a b : String) (h : a.length + b.length ≠ 0) :
    similarGt34 a b = true ↔ similar a b > 3/4 := by
  unfold similarGt34 similar
  rw [if_neg h, decide_eq_true_eq, gt_iff_lt]
  have ht : (0 : ℚ) < ((a.length + b.length : Nat) : ℚ) := by
    exact_mod_cast Nat.pos_of_ne_zero h
  rw [div_lt_div_iff₀ (by norm_num) ht]
  rw [show (8 : Nat) * matchTotal a.data b.data
        = 2 * matchTotal a.data b.data * 4 by ring]
  constructor
  · intro hh
    exact_mod_cast hh
  · intro hh
    exact_mod_cast hh

/-- Every entry of the known-brand list is a nonempty string. -/
theorem brands_nonempty : ∀ kb ∈ KNOWN_BRANDS, kb.length ≠ 0 := by decide

theorem flags_decomp (t : String) :
    (analyze_text t).flags =
      lexical_flags t ++ ((extract_urls t).map url_flags_for).flatten ++
        lookalike_flags (suspicious_domains (extract_urls t)) := rfl

theorem score_decomp (t : String) :
    (analyze_text t).score = max 0 (min 100 (raw_score t)) := rfl

theorem url_score_for_eq (u : String) :
    url_score_for u =
      (if unicodeQualifies u then 20 else 0) + (if tldQualifies u then 5 else 0) := by
  unfold url_score_for unicodeQualifies tldQualifies
  by_cases h : domain_from_url u = "" <;>
    simp [h]

theorem filter_url_flags_unicode (u : String) :
    ((url_flags_for u).filter (fun f => f.id == "unicode")).length =
      if unicodeQualifies u then 1 else 0 := by
  unfold url_flags_for unicodeQualifies
  by_cases h : domain_from_url u = "" <;>
    by_cases h2 : unicodeCond (domain_from_url u) <;>
      by_cases h3 : tldCond (domain_from_url u) <;>
        simp [h, h2, h3, List.filter_append]

theorem filter_url_flags_tld (u : String) :
    ((url_flags_for u).filter (fun f => f.id == "tld")).length =
      if tldQualifies u then 1 else 0 := by
  unfold url_flags_for tldQualifies
  by_cases h : domain_from_url u = "" <;>
    by_cases h2 : unicodeCond (domain_from_url u) <;>
      by_cases h3 : tldCond (domain_from_url u) <;>
        simp [h, h2, h3, List.filter_append]

theorem filter_url_flags_other (u : String) (p : Flag → Bool)
    (hu : ∀ ttl sev expl, p ⟨"unicode", ttl, sev, expl⟩ = false)
    (ht : ∀ ttl sev expl, p ⟨"tld", ttl, sev, expl⟩ = false) :
    (url_flags_for u).filter p = [] := by
  unfold url_flags_for
  by_cases h : domain_from_url u = "" <;>
    by_cases h2 : unicodeCond (domain_from_url u) <;>
      by_cases h3 : tldCond (domain_from_url u) <;>
        simp [h, h2, h3, List.filter_append, List.filter_cons, hu, ht]

theorem filter_lexical (t : String) (p : Flag → Bool)
    (h1 : ∀ ttl sev expl, p ⟨"urgency", ttl, sev, expl⟩ = false)
    (h2 : ∀ ttl sev expl, p ⟨"threat", ttl, sev, expl⟩ = false)
    (h3 : ∀ ttl sev expl, p ⟨"payment", ttl, sev, expl⟩ = false)
    (h4 : ∀ ttl sev expl, p ⟨"credentials", ttl, sev, expl⟩ = false)
    (h5 : ∀ ttl sev expl, p ⟨"style", ttl, sev, expl⟩ = false) :
    (lexical_flags t).filter p = [] := by
  unfold lexical_flags
  simp [List.filter_append, List.filter_cons, h1, h2, h3, h4, h5]

theorem filter_lookalike_other (ps : List (String × String)) (p : Flag → Bool)
    (h : ∀ ttl sev expl, p ⟨"lookalike", ttl, sev, expl⟩ = false) :
    (lookalike_flags ps).filter p = [] := by
  unfold lookalike_flags
  split_ifs <;> simp [List.filter_cons, h]

theorem filter_flatten_count (p : Flag → Bool) (g : String → Nat)
    (hg : ∀ u, ((url_flags_for u).filter p).length = g u) :
    ∀ urls : List String,
      (((urls.map url_flags_for).flatten.filter p)).length = (urls.map g).sum
  | [] => by simp
  | u :: urls => by
    have ih := filter_flatten_count p g hg urls
    simp only [List.map_cons, List.flatten_cons, List.filter_append,
      List.length_append, List.sum_cons, hg u, ih]

theorem sum_indicator (q : String → Bool) :
    ∀ l : List String,
      (l.map (fun u => if q u then 1 else 0)).sum = (l.filter q).length
  | [] => by simp
  | u :: l => by
    by_cases h : q u <;> simp [h, sum_indicator q l, Nat.add_comm]

theorem foldl_add_int : ∀ (l : List Int) (a : Int), l.foldl (· + ·) a = a + l.sum
  | [], a => by simp
  | x :: l, a => by
    simp [foldl_add_int l (a + x), List.sum_cons]
    ring

/-- `List.find?` returns the first element satisfying the predicate:
everything before it fails. -/
theorem find?_first {α : Type} (p : α → Bool) :
    ∀ (l : List α) (a : α), l.find? p = some a →
      ∃ l₁ l₂, l = l₁ ++ a :: l₂ ∧ p a = true ∧ ∀ b ∈ l₁, p b = false
  | [], a, h => by simp [List.find?] at h
  | c :: l, a, h => by
    by_cases hc : p c
    · refine ⟨[], l, ?_, ?_, by simp⟩
      · simp [List.find?, hc] at h
        simp [h]
      · simp [List.find?, hc] at h
        rw [← h]; exact hc
    · have h' : l.find? p = some a := by
        simpa [List.find?, hc] using h
      obtain ⟨l₁, l₂, hl, hpa, hfirst⟩ := find?_first p l a h'
      refine ⟨c :: l₁, l₂, by simp [hl], hpa, ?_⟩
      intro b hb
      rcases List.mem_cons.mp hb with rfl | hb
      · exact eq_false_of_ne_true (by simpa using hc)
      · exact hfirst b hb

theorem filter_flatten_nil (p : Flag → Bool)
    (hp : ∀ u, (url_flags_for u).filter p = []) :
    ∀ urls : List String, ((urls.map url_flags_for).flatten.filter p) = []
  | [] => by simp
  | u :: urls => by
    simp only [List.map_cons, List.flatten_cons, List.filter_append, hp u,
      filter_flatten_nil p hp urls, List.append_nil]

theorem url_score_sum (urls : List String) :
    (urls.map url_score_for).sum =
      20 * (((urls.filter unicodeQualifies).length : Int)) +
        5 * (((urls.filter tldQualifies).length : Int)) := by
  induction urls with
  | nil => simp
  | cons u urls ih =>
    rw [List.map_cons, List.sum_cons, ih, url_score_for_eq]
    by_cases h1 : unicodeQualifies u <;> by_cases h2 : tldQualifies u <;>
      simp [h1, h2, List.filter_cons] <;> omega

/-! ## Claims -/

/-- C1: for every input text the score of the analysis result lies between
0 and 100, and whenever the raw sum of flag contributions exceeds 100 the
final score is exactly 100. -/
theorem claim_C1_score_bounds (t : String) :
    0 ≤ (analyze_text t).score ∧ (analyze_text t).score ≤ 100 ∧
      (100 < raw_score t → (analyze_text t).score = 100) := by
  refine ⟨?_, ?_, ?_⟩ <;> rw [score_decomp]
  · exact le_max_left 0 _
  · exact max_le (by norm_num) (min_le_left _ _)
  · intro hgt
    rw [min_eq_left (by omega : (100 : Int) ≤ raw_score t)]
    norm_num

set_option maxRecDepth 100000 in
/-- Witness for C1: a message stacking all four keyword categories, the
style flag and a non-ASCII `.ru` host has raw score 105 and final score
exactly 100. -/
theorem claim_C1_score_bounds_witness :
    100 < raw_score "urgent police gift card password!!! http://аб.ru" ∧
      (analyze_text "urgent police gift card password!!! http://аб.ru").score = 100 :=
  ⟨by decide,
   (claim_C1_score_bounds "urgent police gift card password!!! http://аб.ru").2.2 (by decide)⟩

/-- C2: `analyze("")` yields the zero-flag, zero-score, Likely-Safe
result; but a `None` argument does **not** yield that result: the style
check reads `text.count("!")` on the unguarded argument and raises
`AttributeError`, so the claim that analyze never raises on absent text
fails on the code. -/
theorem claim_C2_empty_and_none :
    analyze_text "" = ⟨0, "Likely Safe", "green", [], []⟩ ∧
      analyze_text_opt none =
        Except.error "AttributeError: \x27NoneType\x27 object has no attribute \x27count\x27" :=
  ⟨by decide, rfl⟩

set_option maxRecDepth 100000 in
/-- Counterexample for C3: two `.ru` URLs in one message produce two
flags with the same category id `"tld"`, so the flag list does not
contain at most one Flag per category id. -/
theorem claim_C3_counterexample :
    (((analyze_text "http://a.ru http://b.ru").flags.filter
        (fun f => f.id == "tld")).length = 2) ∧
      (analyze_text "http://a.ru http://b.ru").flags.map Flag.id = ["tld", "tld"] ∧
      (analyze_text "http://a.ru http://b.ru").score = 10 := by decide

/-- C3 as amended: the keyword, style and lookalike categories emit at
most one Flag each, but the unicode and TLD checks append one Flag per
qualifying URL — the same id may repeat — and their score contribution is
likewise added once per qualifying URL (+20 per mixed-script/non-ASCII
host, +5 per suspicious-TLD host). -/
theorem claim_C3_amended (t : String) :
    ((analyze_text t).flags.filter (fun f => f.id == "tld")).length =
        ((extract_urls t).filter tldQualifies).length ∧
      ((analyze_text t).flags.filter (fun f => f.id == "unicode")).length =
        ((extract_urls t).filter unicodeQualifies).length ∧
      ((extract_urls t).map url_score_for).foldl (· + ·) 0 =
        20 * (((extract_urls t).filter unicodeQualifies).length : Int) +
          5 * (((extract_urls t).filter tldQualifies).length : Int) ∧
      ∀ i ∈ (["urgency", "threat", "payment", "credentials", "style",
              "lookalike"] : List String),
        ((analyze_text t).flags.filter (fun f => f.id == i)).length ≤ 1 := by
  refine ⟨?_, ?_, ?_, ?_⟩
  · rw [flags_decomp, List.filter_append, List.filter_append,
      filter_lexical _ _ (fun _ _ _ => rfl) (fun _ _ _ => rfl)
        (fun _ _ _ => rfl) (fun _ _ _ => rfl) (fun _ _ _ => rfl),
      filter_lookalike_other _ _ (fun _ _ _ => rfl)]
    simp only [List.nil_append, List.append_nil]
    rw [filter_flatten_count (fun f => f.id == "tld")
        (fun u => if tldQualifies u then 1 else 0) filter_url_flags_tld,
      sum_indicator]
  · rw [flags_decomp, List.filter_append, List.filter_append,
      filter_lexical _ _ (fun _ _ _ => rfl) (fun _ _ _ => rfl)
        (fun _ _ _ => rfl) (fun _ _ _ => rfl) (fun _ _ _ => rfl),
      filter_lookalike_other _ _ (fun _ _ _ => rfl)]
    simp only [List.nil_append, List.append_nil]
    rw [filter_flatten_count (fun f => f.id == "unicode")
        (fun u => if unicodeQualifies u then 1 else 0) filter_url_flags_unicode,
      sum_indicator]
  · rw [foldl_add_int, zero_add, url_score_sum]
  · intro i hi
    fin_cases hi
    · rw [flags_decomp, List.filter_append, List.filter_append,
        filter_flatten_nil _ (fun u => filter_url_flags_other u _
          (fun _ _ _ => rfl) (fun _ _ _ => rfl)),
        filter_lookalike_other _ _ (fun _ _ _ => rfl)]
      simp only [List.append_nil]
      unfold lexical_flags
      simp only [List.filter_append, List.length_append]
      split_ifs <;> simp
    · rw [flags_decomp, List.filter_append, List.filter_append,
        filter_flatten_nil _ (fun u => filter_url_flags_other u _
          (fun _ _ _ => rfl) (fun _ _ _ => rfl)),
        filter_lookalike_other _ _ (fun _ _ _ => rfl)]
      simp only [List.append_nil]
      unfold lexical_flags
      simp only [List.filter_append, List.length_append]
      split_ifs <;> simp
    · rw [flags_decomp, List.filter_append, List.filter_append,
        filter_flatten_nil _ (fun u => filter_url_flags_other u _
          (fun _ _ _ => rfl) (fun _ _ _ => rfl)),
        filter_lookalike_other _ _ (fun _ _ _ => rfl)]
      simp only [List.append_nil]
      unfold lexical_flags
      simp only [List.filter_append, List.length_append]
      split_ifs <;> simp
    · rw [flags_decomp, List.filter_append, List.filter_append,
        filter_flatten_nil _ (fun u => filter_url_flags_other u _
          (fun _ _ _ => rfl) (fun _ _ _ => rfl)),
        filter_lookalike_other _ _ (fun _ _ _ => rfl)]
      simp only [List.append_nil]
      unfold lexical_flags
      simp only [List.filter_append, List.length_append]
      split_ifs <;> simp
    · rw [flags_decomp, List.filter_append, List.filter_append,
        filter_flatten_nil _ (fun u => filter_url_flags_other u _
          (fun _ _ _ => rfl) (fun _ _ _ => rfl)),
        filter_lookalike_other _ _ (fun _ _ _ => rfl)]
      simp only [List.append_nil]
      unfold lexical_flags
      simp only [List.filter_append, List.length_append]
      split_ifs <;> simp
    · rw [flags_decomp, List.filter_append, List.filter_append,
        filter_lexical _ _ (fun _ _ _ => rfl) (fun _ _ _ => rfl)
          (fun _ _ _ => rfl) (fun _ _ _ => rfl) (fun _ _ _ => rfl),
        filter_flatten_nil _ (fun u => filter_url_flags_other u _
          (fun _ _ _ => rfl) (fun _ _ _ => rfl))]
      simp only [List.nil_append, List.append_nil]
      unfold lookalike_flags
      split_ifs <;> simp

/-- Witness for C3 (amended), instantiating the per-category bound at the
urgency flag of a concrete message. -/
theorem claim_C3_amended_witness :
    ("urgency" ∈ (["urgency", "threat", "payment", "credentials", "style",
        "lookalike"] : List String)) ∧
      ((analyze_text "urgent").flags.filter (fun f => f.id == "urgency")).length ≤ 1 :=
  ⟨by decide, (claim_C3_amended "urgent").2.2.2 "urgency" (by decide)⟩

/-- C6: the lookalike check emits at most one flag and adds +25 at most
once per analysis: every flag with id `"lookalike"` comes from the single
aggregate flag built from `suspicious_domains`, whose explanation joins
all recorded host≈brand pairs; and within one host the scan records the
first brand whose similarity exceeds 0.75 and stops — every brand listed
before the recorded one fails the test. -/
theorem claim_C6_lookalike_once (t : String) :
    ((analyze_text t).flags.filter (fun f => f.id == "lookalike") =
        lookalike_flags (suspicious_domains (extract_urls t))) ∧
      ((analyze_text t).flags.filter (fun f => f.id == "lookalike")).length ≤ 1 ∧
      (raw_score t =
        lexical_score t + ((extract_urls t).map url_score_for).foldl (· + ·) 0 +
          (if (suspicious_domains (extract_urls t)).isEmpty then 0 else 25)) ∧
      (suspicious_domains (extract_urls t) ≠ [] →
        (analyze_text t).flags.filter (fun f => f.id == "lookalike") =
          [⟨"lookalike", "Brand lookalike domain", 3,
            "These domains resemble well‑known brands: " ++
              String.intercalate ", "
                ((suspicious_domains (extract_urls t)).map
                  (fun p => p.1 ++ "≈" ++ p.2)) ++ "."⟩]) ∧
      ∀ d kb, lookalike_match d = some kb →
        ∃ l₁ l₂, KNOWN_BRANDS = l₁ ++ kb :: l₂ ∧
          (d ≠ kb ∧ similar d kb > 3/4) ∧
          ∀ kb' ∈ l₁, ¬(d ≠ kb' ∧ similar d kb' > 3/4) := by
  have h1 : (analyze_text t).flags.filter (fun f => f.id == "lookalike") =
      lookalike_flags (suspicious_domains (extract_urls t)) := by
    rw [flags_decomp, List.filter_append, List.filter_append,
      filter_lexical _ _ (fun _ _ _ => rfl) (fun _ _ _ => rfl)
        (fun _ _ _ => rfl) (fun _ _ _ => rfl) (fun _ _ _ => rfl),
      filter_flatten_nil _ (fun u => filter_url_flags_other u _
        (fun _ _ _ => rfl) (fun _ _ _ => rfl))]
    simp only [List.nil_append, List.append_nil]
    unfold lookalike_flags
    split_ifs <;> simp
  refine ⟨h1, ?_, rfl, ?_, ?_⟩
  · rw [h1]
    unfold lookalike_flags
    split_ifs <;> simp
  · intro hne
    rw [h1]
    unfold lookalike_flags
    rw [if_neg (by simpa using hne)]
  · intro d kb hfind
    have hmem : kb ∈ KNOWN_BRANDS := List.mem_of_find?_eq_some hfind
    obtain ⟨l₁, l₂, hsplit, hpa, hfirst⟩ := find?_first _ _ _ hfind
    have hpa' : (decide (d ≠ kb) && similarGt34 d kb) = true := hpa
    rw [Bool.and_eq_true, decide_eq_true_eq] at hpa'
    have hlen : d.length + kb.length ≠ 0 := by
      have := brands_nonempty kb hmem
      omega
    refine ⟨l₁, l₂, hsplit, ⟨hpa'.1, (similarGt34_iff d kb hlen).mp hpa'.2⟩, ?_⟩
    intro kb' hkb' hcontra
    obtain ⟨hne', hsim'⟩ := hcontra
    have hmem' : kb' ∈ KNOWN_BRANDS := by
      rw [hsplit]
      exact List.mem_append_left _ hkb'
    have hlen' : d.length + kb'.length ≠ 0 := by
      have := brands_nonempty kb' hmem'
      omega
    have hb' : (decide (d ≠ kb') && similarGt34 d kb') = false := hfirst kb' hkb'
    have htrue : (decide (d ≠ kb') && similarGt34 d kb') = true := by
      rw [Bool.and_eq_true, decide_eq_true_eq]
      exact ⟨hne', (similarGt34_iff d kb' hlen').mpr hsim'⟩
    rw [htrue] at hb'
    exact Bool.noConfusion hb'

set_option maxRecDepth 400000 in
/-- Witness for C6: a message with two lookalike hosts still yields a
single aggregate lookalike flag listing both pairs. -/
theorem claim_C6_lookalike_once_witness :
    suspicious_domains (extract_urls "http://g00gle.com http://paypa1.com") ≠ [] ∧
      (analyze_text "http://g00gle.com http://paypa1.com").flags.filter
          (fun f => f.id == "lookalike") =
        [⟨"lookalike", "Brand lookalike domain", 3,
          "These domains resemble well‑known brands: g00gle.com≈google.com, paypa1.com≈paypal.com."⟩] := by
  refine ⟨by decide, ?_⟩
  have h := (claim_C6_lookalike_once "http://g00gle.com http://paypa1.com").2.2.2.1
    (by decide)
  rw [h]
  decide

/-- C4: the claim fails on the code: `CREDENTIAL_KEYWORDS` spells the
entry `"PIN"` in upper case while membership is tested against the
lower-cased text, so no casing of the word pin ever raises the
credential flag: both `"pin"` and `"Enter your PIN"` come back with no
flags and score 0, even though the lower-cased text does contain the
substring `"pin"`. -/
theorem claim_C4_pin_keyword_dead :
    analyze_text "pin" = ⟨0, "Likely Safe", "green", [], []⟩ ∧
      analyze_text "Enter your PIN" = ⟨0, "Likely Safe", "green", [], []⟩ ∧
      anyKeyword CREDENTIAL_KEYWORDS (pyLower "Enter your PIN") = false ∧
      pyIn "pin" (pyLower "Enter your PIN") = true := by decide

set_option maxRecDepth 100000 in
/-- C5: a derived host that exactly equals one of the ten known brands is
never recorded as a lookalike pair: the scan skips the equal entry, and no
two distinct entries of `KNOWN_BRANDS` have similarity above 0.75, so
`lookalike_match` returns `none` on every brand and `suspicious_domains`
never contains a pair whose host is a brand. -/
theorem claim_C5_exact_brand_no_pair :
    (∀ d ∈ KNOWN_BRANDS, lookalike_match d = none) ∧
      ∀ (urls : List String) (d kb : String),
        (d, kb) ∈ suspicious_domains urls → d ∉ KNOWN_BRANDS := by
  have h1 : ∀ d ∈ KNOWN_BRANDS, lookalike_match d = none := by decide
  refine ⟨h1, ?_⟩
  intro urls d kb hmem hd
  rcases List.mem_filterMap.mp hmem with ⟨u, _, hf⟩
  by_cases hdom : domain_from_url u = ""
  · simp [hdom] at hf
  · simp only [hdom, if_false, Option.map_eq_some'] at hf
    rcases hf with ⟨kb', hfind, heq⟩
    have hD : domain_from_url u = d := (Prod.mk.injEq _ _ _ _).mp heq |>.1
    rw [hD] at hfind
    rw [h1 d hd] at hfind
    exact Option.noConfusion hfind

/-- Witness for C5: the brand `google.com` itself is scanned against the
whole brand set and yields no lookalike pair. -/
theorem claim_C5_exact_brand_no_pair_witness :
    "google.com" ∈ KNOWN_BRANDS ∧ lookalike_match "google.com" = none :=
  ⟨by decide, claim_C5_exact_brand_no_pair.1 "google.com" (by decide)⟩

/-- C7: the verdict/colour mapping applied to the clamped score has the
exact boundaries 34/35/69/70, every score ≥ 70 is High Risk/red, every
score in 35–69 is Caution/orange, every score in 0–34 is Likely
Safe/green, and `analyze_text` derives verdict and colour from its own
clamped score through exactly this mapping. -/
theorem claim_C7_verdict_mapping :
    (∀ t, ((analyze_text t).verdict, (analyze_text t).color) =
        verdict_color (analyze_text t).score) ∧
      verdict_color 34 = ("Likely Safe", "green") ∧
      verdict_color 35 = ("Caution", "orange") ∧
      verdict_color 69 = ("Caution", "orange") ∧
      verdict_color 70 = ("High Risk", "red") ∧
      (∀ s : Int, 70 ≤ s → verdict_color s = ("High Risk", "red")) ∧
      (∀ s : Int, 35 ≤ s → s ≤ 69 → verdict_color s = ("Caution", "orange")) ∧
      (∀ s : Int, 0 ≤ s → s ≤ 34 → verdict_color s = ("Likely Safe", "green")) := by
  refine ⟨fun t => rfl, by decide, by decide, by decide, by decide, ?_, ?_, ?_⟩
  · intro s h
    unfold verdict_color
    rw [if_pos h]
  · intro s h1 h2
    unfold verdict_color
    rw [if_neg (by omega), if_pos h1]
  · intro s h1 h2
    unfold verdict_color
    rw [if_neg (by omega), if_neg (by omega)]

/-- Witness for C7: the three range statements at scores 80, 50 and 10. -/
theorem claim_C7_verdict_mapping_witness :
    verdict_color 80 = ("High Risk", "red") ∧
      verdict_color 50 = ("Caution", "orange") ∧
      verdict_color 10 = ("Likely Safe", "green") :=
  ⟨claim_C7_verdict_mapping.2.2.2.2.2.1 80 (by decide),
   claim_C7_verdict_mapping.2.2.2.2.2.2.1 50 (by decide) (by decide),
   claim_C7_verdict_mapping.2.2.2.2.2.2.2 10 (by decide) (by decide)⟩

/-- C8: the analysis is a pure function of the input text — the embedding
is a total function with no state, randomness or I/O, so equal inputs
give results equal in every component. -/
theorem claim_C8_deterministic (t₁ t₂ : String) (h : t₁ = t₂) :
    analyze_text t₁ = analyze_text t₂ ∧
      (analyze_text t₁).score = (analyze_text t₂).score ∧
      (analyze_text t₁).verdict = (analyze_text t₂).verdict ∧
      (analyze_text t₁).color = (analyze_text t₂).color ∧
      (analyze_text t₁).flags = (analyze_text t₂).flags ∧
      (analyze_text t₁).urls = (analyze_text t₂).urls := by
  subst h
  exact ⟨rfl, rfl, rfl, rfl, rfl, rfl⟩

/-- Witness for C8 at a concrete text. -/
theorem claim_C8_deterministic_witness :
    analyze_text "urgent" = analyze_text "urgent" :=
  (claim_C8_deterministic "urgent" "urgent" rfl).1

/-- Counterexample for C9: on a transport failure the wrapper returns the
fixed conservative score-50 "Caution" dictionary, but that dictionary has
**no** `confidence` key (llm.py lines 61–69), contradicting the claimed
advisory-judgment shape `score, verdict, reasons, advice, confidence`. -/
theorem claim_C9_counterexample :
    llm_assess_message (some "sk-test")
        (LLMCallOutcome.transportFailure "connection refused") =
      Except.ok
        { score := 50, verdict := "Caution",
          reasons := ["LLM error: connection refused"],
          advice := ["Do not share codes or passwords.",
                     "Verify via official channels and trusted contacts."],
          confidence := none } := rfl

/-- C9 as amended: a missing (or empty) API key yields the hard
`RuntimeError` independently of any call outcome — i.e. before any
network attempt — and every transport/service failure is recovered
locally into the fixed score-50 "Caution" judgement with reasons and
advice but without a confidence entry. -/
theorem claim_C9_amended :
    (∀ o : LLMCallOutcome,
        llm_assess_message none o =
          Except.error "Missing OPENAI_API_KEY. Set it before enabling AI checks." ∧
        llm_assess_message (some "") o =
          Except.error "Missing OPENAI_API_KEY. Set it before enabling AI checks.") ∧
      ∀ (k e : String), k ≠ "" →
        llm_assess_message (some k) (LLMCallOutcome.transportFailure e) =
          Except.ok
            { score := 50, verdict := "Caution",
              reasons := ["LLM error: " ++ e],
              advice := ["Do not share codes or passwords.",
                         "Verify via official channels and trusted contacts."],
              confidence := none } := by
  constructor
  · intro o
    exact ⟨rfl, rfl⟩
  · intro k e hk
    simp [llm_assess_message, hk]

/-- Witness for C9 (amended): a concrete key and transport error. -/
theorem claim_C9_amended_witness :
    llm_assess_message (some "sk-live") (LLMCallOutcome.transportFailure "timeout") =
      Except.ok
        { score := 50, verdict := "Caution",
          reasons := ["LLM error: timeout"],
          advice := ["Do not share codes or passwords.",
                     "Verify via official channels and trusted contacts."],
          confidence := none } :=
  claim_C9_amended.2 "sk-live" "timeout" (by decide)

/-- C10: safe-word verification is normalization-insensitive: any attempt
equal to the stored phrase after stripping surrounding whitespace and
lower-casing verifies against the stored hash, and in particular the
round trip `verify(hash(w), w)` always succeeds. -/
theorem claim_C10_safe_word_normalization :
    (∀ w a : String, pyLower (pyStrip a) = pyLower (pyStrip w) →
        verify_safe_word (hash_safe_word w) a = true) ∧
      ∀ w : String, verify_safe_word (hash_safe_word w) w = true := by
  have key : ∀ w a : String, pyLower (pyStrip a) = pyLower (pyStrip w) →
      verify_safe_word (hash_safe_word w) a = true := by
    intro w a h
    unfold verify_safe_word hash_safe_word
    rw [h]
    exact beq_self_eq_true _
  exact ⟨key, fun w => key w w rfl⟩

/-- Witness for C10: a padded upper-case attempt verifies against the
hash of the bare lower-case phrase. -/
theorem claim_C10_safe_word_normalization_witness :
    pyLower (pyStrip " SECRET ") = pyLower (pyStrip "secret") ∧
      verify_safe_word (hash_safe_word "secret") " SECRET " = true :=
  ⟨by decide, claim_C10_safe_word_normalization.1 "secret" " SECRET " (by decide)⟩

end TrustGuard

